import Mathlib

/-!
Shallow embedding of `lsof.py`, a small Python 2 script that lists open
files of all processes by reading the `/proc` filesystem. The OS-facing
calls (`os.readlink`, `os.stat`, `os.listdir`, `pwd.getpwuid`, opening
`/proc/<pid>/stat`, `/proc/<pid>/status` and `/proc/<pid>/maps`) are
abstracted into an environment record `Env`; each Python function of the
script becomes a Lean function over that environment, with Python
exceptions modelled by `Except PyErr`.
-/

set_option autoImplicit false

/-- Python exception classes relevant to the script. In Python 2, `IOError`
(raised by `open`) and `OSError` (raised by `os.readlink`, `os.stat`,
`os.listdir`) are distinct classes, so `except OSError` does not catch
`IOError`; `KeyError` comes from `pwd.getpwuid`, `ValueError` from `int()`
and tuple unpacking of `str.split`, `IndexError` from out-of-range
indexing, `NameError` from reading a never-assigned local, and
`AttributeError` from attribute access on `None`. The payload of
`osError` is the `strerror` text. -/
inductive PyErr where
  | osError (strerror : String)
  | ioError (strerror : String)
  | keyError
  | valueError
  | indexError
  | nameError
  | attributeError
  deriving DecidableEq

/-- A Python value stored in a `FileInfo` field that the script sometimes
fills with an `int` (from `os.stat`) and sometimes with a `str`. -/
inductive PyVal where
  | s (v : String)
  | i (v : Nat)
  deriving DecidableEq

/-- Result of `os.stat`: the fields the script reads. -/
structure StatObj where
  st_mode : Nat
  st_dev : Nat
  st_rdev : Nat
  st_size : Nat
  st_ino : Nat
  deriving DecidableEq

/-- The OS environment the script runs against: every external lookup the
script performs, keyed the way the script performs it. `readlink` and
`stat` are keyed by path; `listdir` by directory path; `procStatLine`
(first line of `/proc/<pid>/stat`), `procStatusLines` (lines of
`/proc/<pid>/status`) and `mapsLines` (lines of `/proc/<pid>/maps`) by
pid; `getpwuid` by numeric uid, returning the user name. -/
structure Env where
  readlink : String → Except PyErr String
  stat : String → Except PyErr StatObj
  listdir : String → Except PyErr (List String)
  procStatLine : String → Except PyErr String
  procStatusLines : String → Except PyErr (List String)
  mapsLines : String → Except PyErr (List String)
  getpwuid : Nat → Except PyErr String

/-! String helpers mirroring the Python primitives the script uses. They
are written by structural recursion on the character list so that they
reduce inside the kernel. -/

/-- Split a character list at every character satisfying `p`, keeping
empty pieces, like Python's `str.split(sep)`. -/
def splitBy (p : Char → Bool) : List Char → List (List Char)
  | [] => [[]]
  | c :: cs =>
    let r := splitBy p cs
    if p c then [] :: r
    else
      match r with
      | [] => [[c]]
      | piece :: rest => (c :: piece) :: rest

/-- Python `str.split(':')`. -/
def pycolonsplit (s : String) : List String :=
  (splitBy (fun c => c == ':') s.data).map String.mk

/-- Python `str.split()` with no argument: split on whitespace runs,
dropping empty pieces. -/
def pysplit (s : String) : List String :=
  ((splitBy (fun c => c == ' ' || c == '\t' || c == '\n') s.data).map String.mk).filter
    (fun t => t ≠ "")

/-- Python slicing `s[1:-1]` (never raises). -/
def pyslice1 (s : String) : String :=
  String.mk ((s.data.drop 1).dropLast)

/-- First character of a nonempty string; Python `s[0]` (callers check
emptiness first, as `s[0]` on `""` raises `IndexError`). -/
def pyhead (s : String) : Char :=
  match s.data with
  | [] => 'A'
  | c :: _ => c

/-- Python `s.startswith(t)`. -/
def startsWithPy (s t : String) : Bool :=
  t.data.isPrefixOf s.data

/-- Python `sep.join(parts)` for a one-character separator `","`. -/
def joinComma : List String → String
  | [] => ""
  | [x] => x
  | x :: xs => x ++ "," ++ joinComma xs

/-- Python list indexing `l[i]`, raising `IndexError` out of range. -/
def getIdx (l : List String) (i : Nat) : Except PyErr String :=
  match l.get? i with
  | some v => Except.ok v
  | none => Except.error PyErr.indexError

/-- Python `int(s)` on the strings the script feeds it (digit strings);
anything else raises `ValueError`. -/
def pyint (s : String) : Except PyErr Nat :=
  if s.data ≠ [] ∧ s.data.all Char.isDigit then
    Except.ok (s.data.foldl (fun acc c => acc * 10 + (c.toNat - 48)) 0)
  else Except.error PyErr.valueError

/-- Decimal rendering of a natural number, Python `str(n)`; fuel-based so
it reduces in the kernel. -/
def natDigitsAux : Nat → Nat → List Char
  | 0, _ => []
  | fuel + 1, n =>
    if n < 10 then [Char.ofNat (48 + n)]
    else natDigitsAux fuel (n / 10) ++ [Char.ofNat (48 + n % 10)]

/-- Python `str(n)` for a natural number. -/
def natToStr (n : Nat) : String :=
  String.mk (natDigitsAux (n + 1) n)

/-- Linux `os.major` (glibc `gnu_dev_major`). -/
def os_major (d : Nat) : Nat :=
  ((d >>> 8) &&& 0xfff) ||| ((d >>> 32) &&& 0xfffffffffffff000)

/-- Linux `os.minor` (glibc `gnu_dev_minor`). -/
def os_minor (d : Nat) : Nat :=
  (d &&& 0xff) ||| ((d >>> 12) &&& 0xffffff00)

/-- `stat.S_IFMT` mask of a mode word. -/
def S_IFMT (m : Nat) : Nat := m &&& 0o170000

/-- `stat.S_ISREG`. -/
def S_ISREG (m : Nat) : Bool := S_IFMT m == 0o100000

/-- `stat.S_ISDIR`. -/
def S_ISDIR (m : Nat) : Bool := S_IFMT m == 0o040000

/-- `stat.S_ISCHR`. -/
def S_ISCHR (m : Nat) : Bool := S_IFMT m == 0o020000

/-- `stat.S_ISFIFO`. -/
def S_ISFIFO (m : Nat) : Bool := S_IFMT m == 0o010000

/-! The script proper. -/

/-- The record class `FileInfo` of the script: one row of the open-files
table. `pid` is the string pid the scanner passes around; `size` and
`node` hold either an `int` (from `os.stat`) or a `str`, as in the
Python object. -/
structure FileInfo where
  pid : String
  cmd : String
  usr : String
  fd : String
  type : String
  dev : String
  size : PyVal
  node : PyVal
  name : String
  deriving DecidableEq

/-- `get_cmd_user`: scan the `Uid:` lines of `/proc/<pid>/status`,
resolving each uid found; the local `user` keeps the last value assigned
(modelled by the accumulator), and is unbound (`NameError` at the
`return`) if no line matched. -/
def uidLoop (env : Env) : List String → Option String → Except PyErr (Option String)
  | [], acc => Except.ok acc
  | ln :: rest, acc =>
    if startsWithPy ln "Uid:" then
      match getIdx (pysplit ln) 1 with
      | Except.error e => Except.error e
      | Except.ok tok =>
        match pyint tok with
        | Except.error e => Except.error e
        | Except.ok uid =>
          match env.getpwuid uid with
          | Except.error e => Except.error e
          | Except.ok user => uidLoop env rest (some user)
    else uidLoop env rest acc

/-- `get_cmd_user(pid)`: command from the second field of
`/proc/<pid>/stat` with its parentheses stripped, user from the uid on the
`Uid:` line of `/proc/<pid>/status` via `pwd.getpwuid`. Any failure
(unreadable file → `IOError`, missing field → `IndexError`, unresolvable
uid → `KeyError`, no `Uid:` line → `NameError`) propagates to the caller:
nothing here is caught. -/
def get_cmd_user (env : Env) (pid : String) : Except PyErr (String × String) :=
  match env.procStatLine pid with
  | Except.error e => Except.error e
  | Except.ok line =>
    match getIdx (pysplit line) 1 with
    | Except.error e => Except.error e
    | Except.ok tok =>
      match env.procStatusLines pid with
      | Except.error e => Except.error e
      | Except.ok lines =>
        match uidLoop env lines none with
        | Except.error e => Except.error e
        | Except.ok (some user) => Except.ok (pyslice1 tok, user)
        | Except.ok none => Except.error PyErr.nameError

/-- `FileInfo.__init__`: stores the given fields and resolves command and
user from the pid via `get_cmd_user`; a failure there propagates and
aborts construction. -/
def mkFileInfo (env : Env) (pid fd ty dev : String) (size node : PyVal) (name : String) :
    Except PyErr FileInfo :=
  match get_cmd_user env pid with
  | Except.error e => Except.error e
  | Except.ok cu =>
    Except.ok ⟨pid, cu.1, cu.2, fd, ty, dev, size, node, name⟩

/-- `get_type(stat_obj)`. -/
def get_type (st : StatObj) : String :=
  if S_ISREG st.st_mode then "REG"
  else if S_ISDIR st.st_mode then "DIR"
  else if S_ISCHR st.st_mode then "CHR"
  else if S_ISFIFO st.st_mode then "FIFO"
  else "unknown"

/-- `fmt_dev(stat, use_rdev)`. -/
def fmt_dev (st : StatObj) (use_rdev : Bool) : String :=
  if use_rdev then natToStr (os_major st.st_rdev) ++ "," ++ natToStr (os_minor st.st_rdev)
  else natToStr (os_major st.st_dev) ++ "," ++ natToStr (os_minor st.st_dev)

/-- Python `except OSError` around a computation: only `OSError` is
caught (with its `strerror` passed to the handler); every other exception
class passes through. -/
def catchOS {α : Type} (x : Except PyErr α) (h : String → Except PyErr α) : Except PyErr α :=
  match x with
  | Except.error (PyErr.osError e) => h e
  | other => other

/-- Wrap a successfully built `FileInfo` as a present (`some`) entry,
propagating construction failures. -/
def optmap (x : Except PyErr FileInfo) : Except PyErr (Option FileInfo) :=
  match x with
  | Except.ok fi => Except.ok (some fi)
  | Except.error e => Except.error e

/-- Body of the `try:` block of `read_fd`: read the link target; an
absolute target is stat'ed and classified by mode, a relative target is
split at `:` (exactly one colon, else `ValueError` from the unpacking)
and matched against `anon_inode` / `socket` / `pipe`; any other kind
falls off the end of the function, returning `None`. An empty target
raises `IndexError` at `real_path[0]`. -/
def read_fd_body (env : Env) (pid fd path : String) (use_rdev : Bool) :
    Except PyErr (Option FileInfo) :=
  match env.readlink path with
  | Except.error e => Except.error e
  | Except.ok real_path =>
    if real_path = "" then Except.error PyErr.indexError
    else if pyhead real_path = '/' then
      match env.stat real_path with
      | Except.error e => Except.error e
      | Except.ok st =>
        optmap (mkFileInfo env pid fd (get_type st) (fmt_dev st use_rdev)
          (PyVal.i st.st_size) (PyVal.i st.st_ino) real_path)
    else
      match pycolonsplit real_path with
      | [ty, nm] =>
        if ty = "anon_inode" then
          optmap (mkFileInfo env pid fd "a_inode" "" (PyVal.s "0") (PyVal.s "") nm)
        else if ty = "socket" then
          optmap (mkFileInfo env pid fd "socket" (pyslice1 nm) (PyVal.s "0") (PyVal.s "") "")
        else if ty = "pipe" then
          optmap (mkFileInfo env pid fd "FIFO" "" (PyVal.s "") (PyVal.s "") "pipe")
        else Except.ok none
      | _ => Except.error PyErr.valueError

/-- `read_fd(pid, fd, path, use_rdev)`: the body above under
`except OSError`, whose handler builds the synthetic error record with
descriptor `NOFD`, type `unknown` and the failing path plus `strerror`
in the name. Exceptions of other classes (notably those escaping
`FileInfo` construction) are not caught. -/
def read_fd (env : Env) (pid fd path : String) (use_rdev : Bool) :
    Except PyErr (Option FileInfo) :=
  catchOS (read_fd_body env pid fd path use_rdev)
    (fun e =>
      optmap (mkFileInfo env pid "NOFD" "unknown" "" (PyVal.s "") (PyVal.s "")
        (path ++ " (error: " ++ e ++ ")")))

/-- Path of one descriptor entry, `'/proc/{}/fd/{}'.format(pid, fd)`. -/
def fdPath (pid fd : String) : String :=
  "/proc/" ++ pid ++ "/fd/" ++ fd

/-- The `for fd in os.listdir(...)` loop of `get_proc_fds`, appending the
result of `read_fd` (which may be `None`) for each listed descriptor in
listing order. -/
def readFdLoop (env : Env) (pid : String) : List String → Except PyErr (List (Option FileInfo))
  | [] => Except.ok []
  | fd :: rest =>
    match read_fd env pid fd (fdPath pid fd) true with
    | Except.error e => Except.error e
    | Except.ok r =>
      match readFdLoop env pid rest with
      | Except.error e => Except.error e
      | Except.ok rs => Except.ok (r :: rs)

/-- `get_proc_fds(pid)`: list `/proc/<pid>/fd` and read every entry with
`use_rdev = True`; on `OSError` (in practice: the `listdir` itself
failing) return a single synthetic `NOFD` entry naming the fd directory
and the error. -/
def get_proc_fds (env : Env) (pid : String) : Except PyErr (List (Option FileInfo)) :=
  catchOS
    (match env.listdir ("/proc/" ++ pid ++ "/fd") with
     | Except.error e => Except.error e
     | Except.ok fds => readFdLoop env pid fds)
    (fun e =>
      match mkFileInfo env pid "NOFD" "unknown" "" (PyVal.s "") (PyVal.s "")
          ("/proc/" ++ pid ++ "/fd" ++ " (error: " ++ e ++ ")") with
      | Except.error e2 => Except.error e2
      | Except.ok fi => Except.ok [some fi])

/-- `get_proc_cwd(pid)` — note the placeholder string is `cwd`. -/
def get_proc_cwd (env : Env) (pid : String) : Except PyErr (Option FileInfo) :=
  read_fd env pid "cwd" ("/proc/" ++ pid ++ "/cwd") false

/-- `get_proc_root(pid)` — note the placeholder string is `rtd`. -/
def get_proc_root (env : Env) (pid : String) : Except PyErr (Option FileInfo) :=
  read_fd env pid "rtd" ("/proc/" ++ pid ++ "/root") false

/-- `get_proc_txt(pid)` — note the placeholder string is `txt`. -/
def get_proc_txt (env : Env) (pid : String) : Except PyErr (Option FileInfo) :=
  read_fd env pid "txt" ("/proc/" ++ pid ++ "/exe") false

/-- One iteration of the `for line in maps` loop of `get_proc_maps`:
take fields 2..4 (offset, device, inode) of the whitespace-split line
(`IndexError` if absent), field 5 or the literal `[blah]` as the name,
skip names not starting with `/`, and otherwise append a record with
descriptor `mem`, hard-coded type `REG`, and the `maj:min` device text
rewritten with a comma. -/
def procMapsLine (env : Env) (pid : String) (acc : List FileInfo) (line : String) :
    Except PyErr (List FileInfo) :=
  let parts := pysplit line
  match getIdx parts 2 with
  | Except.error e => Except.error e
  | Except.ok offset =>
    match getIdx parts 3 with
    | Except.error e => Except.error e
    | Except.ok dev =>
      match getIdx parts 4 with
      | Except.error e => Except.error e
      | Except.ok inode =>
        let name := match parts.get? 5 with
          | some n => n
          | none => "[blah]"
        if name = "" then Except.error PyErr.indexError
        else if pyhead name = '/' then
          match mkFileInfo env pid "mem" "REG" (joinComma (pycolonsplit dev))
              (PyVal.s offset) (PyVal.s inode) name with
          | Except.error e => Except.error e
          | Except.ok fi => Except.ok (acc ++ [fi])
        else Except.ok acc

/-- The whole `for` loop of `get_proc_maps` over the lines of
`/proc/<pid>/maps`, threading the accumulated record list. -/
def mapsLoop (env : Env) (pid : String) : List String → List FileInfo →
    Except PyErr (List FileInfo)
  | [], acc => Except.ok acc
  | line :: rest, acc =>
    match procMapsLine env pid acc line with
    | Except.error e => Except.error e
    | Except.ok acc2 => mapsLoop env pid rest acc2

/-- `get_proc_maps(pid)`: the loop above under a bare `except:` that
returns `[]` on any exception whatsoever, discarding records already
accumulated. -/
def get_proc_maps (env : Env) (pid : String) : List FileInfo :=
  match env.mapsLines pid with
  | Except.error _ => []
  | Except.ok lines =>
    match mapsLoop env pid lines [] with
    | Except.error _ => []
    | Except.ok l => l

/-- `get_proc_files(pid)`: concatenation, in source order, of cwd, root,
executable, memory-map and numbered-descriptor records. -/
def get_proc_files (env : Env) (pid : String) : Except PyErr (List (Option FileInfo)) :=
  match get_proc_cwd env pid with
  | Except.error e => Except.error e
  | Except.ok c =>
    match get_proc_root env pid with
    | Except.error e => Except.error e
    | Except.ok r =>
      match get_proc_txt env pid with
      | Except.error e => Except.error e
      | Except.ok t =>
        match get_proc_fds env pid with
        | Except.error e => Except.error e
        | Except.ok f =>
          Except.ok ([c] ++ [r] ++ [t] ++ (get_proc_maps env pid).map some ++ f)

/-- Python `str.isdigit` as used by `lsof` to filter `/proc` entries. -/
def pyIsDigit (s : String) : Bool :=
  s.data ≠ [] && s.data.all Char.isDigit

/-- Printing one process's rows: formatting accesses `file_info.cmd`
etc., so a `None` entry in the list raises `AttributeError`. -/
def emitRows : List (Option FileInfo) → Except PyErr (List FileInfo)
  | [] => Except.ok []
  | some fi :: rest =>
    match emitRows rest with
    | Except.error e => Except.error e
    | Except.ok rs => Except.ok (fi :: rs)
  | none :: _ => Except.error PyErr.attributeError

/-- The scan loop of `lsof()` over the `/proc` listing: skip non-numeric
entries, enumerate each pid and print its rows. -/
def lsofLoop (env : Env) : List String → Except PyErr (List FileInfo)
  | [] => Except.ok []
  | pid :: rest =>
    if pyIsDigit pid then
      match get_proc_files env pid with
      | Except.error e => Except.error e
      | Except.ok fis =>
        match emitRows fis with
        | Except.error e => Except.error e
        | Except.ok rows =>
          match lsofLoop env rest with
          | Except.error e => Except.error e
          | Except.ok rs => Except.ok (rows ++ rs)
    else lsofLoop env rest

/-- `lsof()`: the full scan, returning the rows it prints; an uncaught
exception anywhere aborts it. -/
def lsof (env : Env) : Except PyErr (List FileInfo) :=
  match env.listdir "/proc" with
  | Except.error e => Except.error e
  | Except.ok pids => lsofLoop env pids

/-! Concrete environments used by the witnesses and counterexamples. -/

/-- A directory: mode `0o040755` on device `8,1` (`st_dev = 2049`). -/
def dirStat : StatObj := ⟨0o040755, 2049, 0, 4096, 2⟩

/-- A regular file: mode `0o100755` on device `8,1`. -/
def regStat : StatObj := ⟨0o100755, 2049, 0, 100, 42⟩

/-- A character device (`/dev/null`): `st_rdev = 259`, i.e. device
`1,3`. -/
def chrStat : StatObj := ⟨0o020666, 6, 259, 0, 5⟩

/-- A healthy environment with one process `1` (command `init`, uid `0`
= `root`) with five descriptors: a character device, a socket, a pipe,
one unreadable descriptor (`EACCES` on its readlink) and an anonymous
inode; its maps table holds one file-backed line, one anonymous line and
one `[stack]` line. -/
def envGood : Env where
  readlink := fun p =>
    if p = "/proc/1/cwd" then Except.ok "/home"
    else if p = "/proc/1/root" then Except.ok "/"
    else if p = "/proc/1/exe" then Except.ok "/sbin/init"
    else if p = "/proc/1/fd/0" then Except.ok "/dev/null"
    else if p = "/proc/1/fd/1" then Except.ok "socket:[12345]"
    else if p = "/proc/1/fd/2" then Except.ok "pipe:[67890]"
    else if p = "/proc/1/fd/3" then Except.error (PyErr.osError "Permission denied")
    else if p = "/proc/1/fd/4" then Except.ok "anon_inode:[eventfd]"
    else Except.error (PyErr.osError "No such file or directory")
  stat := fun p =>
    if p = "/home" then Except.ok dirStat
    else if p = "/" then Except.ok dirStat
    else if p = "/sbin/init" then Except.ok regStat
    else if p = "/dev/null" then Except.ok chrStat
    else Except.error (PyErr.osError "No such file or directory")
  listdir := fun p =>
    if p = "/proc" then Except.ok ["1"]
    else if p = "/proc/1/fd" then Except.ok ["0", "1", "2", "3", "4"]
    else Except.error (PyErr.osError "No such file or directory")
  procStatLine := fun p =>
    if p = "1" then Except.ok "1 (init) S 0 1 1 0"
    else Except.error (PyErr.ioError "No such process")
  procStatusLines := fun p =>
    if p = "1" then Except.ok ["Name:\tinit", "Uid:\t0\t0\t0\t0"]
    else Except.error (PyErr.ioError "No such process")
  mapsLines := fun p =>
    if p = "1" then
      Except.ok ["00400000-00452000 r-xp 00000000 08:02 173521 /sbin/init",
        "7ffd0000-7ffe0000 rw-p 00000000 00:00 0",
        "7ffe0000-7fff0000 rw-p 00000000 00:00 0 [stack]"]
    else Except.error (PyErr.ioError "No such process")
  getpwuid := fun u =>
    if u = 0 then Except.ok "root" else Except.error PyErr.keyError

/-- `envGood` with an unresolvable process owner: `pwd.getpwuid` raises
`KeyError` for every uid. -/
def envKeyErr : Env :=
  { envGood with getpwuid := fun _ => Except.error PyErr.keyError }

/-- `envGood` with a single descriptor whose link target has the
unrecognized prefix `net:`. -/
def envNet : Env :=
  { envGood with
    listdir := fun p =>
      if p = "/proc" then Except.ok ["1"]
      else if p = "/proc/1/fd" then Except.ok ["7"]
      else Except.error (PyErr.osError "No such file or directory"),
    readlink := fun p =>
      if p = "/proc/1/fd/7" then Except.ok "net:[4026531840]"
      else envGood.readlink p }

/-- `envGood` with a maps table whose second line is malformed (too few
fields), after a valid file-backed first line. -/
def envMapsBad : Env :=
  { envGood with
    mapsLines := fun _ =>
      Except.ok ["00400000-00452000 r-xp 00000000 08:02 173521 /sbin/init", "garbage"] }



/-- The cwd record `envGood` produces for pid 1. -/
def cwdRecG : FileInfo :=
  ⟨"1", "init", "root", "cwd", "DIR", "8,1", PyVal.i 4096, PyVal.i 2, "/home"⟩

/-- The root-directory record `envGood` produces for pid 1 (descriptor
string `rtd`). -/
def rootRecG : FileInfo :=
  ⟨"1", "init", "root", "rtd", "DIR", "8,1", PyVal.i 4096, PyVal.i 2, "/"⟩

/-- The executable record `envGood` produces for pid 1 (descriptor
string `txt`). -/
def txtRecG : FileInfo :=
  ⟨"1", "init", "root", "txt", "REG", "8,1", PyVal.i 100, PyVal.i 42, "/sbin/init"⟩

/-- The single memory-map record `envGood` produces for pid 1. -/
def memRecG : FileInfo :=
  ⟨"1", "init", "root", "mem", "REG", "08,02", PyVal.s "00000000", PyVal.s "173521",
    "/sbin/init"⟩

/-- The numbered-descriptor section `envGood` produces for pid 1:
descriptor 3 is the one whose readlink fails with `EACCES`. -/
def goodFds : List (Option FileInfo) :=
  [some ⟨"1", "init", "root", "0", "CHR", "1,3", PyVal.i 0, PyVal.i 5, "/dev/null"⟩,
   some ⟨"1", "init", "root", "1", "socket", "12345", PyVal.s "0", PyVal.s "", ""⟩,
   some ⟨"1", "init", "root", "2", "FIFO", "", PyVal.s "", PyVal.s "", "pipe"⟩,
   some ⟨"1", "init", "root", "NOFD", "unknown", "", PyVal.s "", PyVal.s "",
     "/proc/1/fd/3 (error: Permission denied)"⟩,
   some ⟨"1", "init", "root", "4", "a_inode", "", PyVal.s "0", PyVal.s "", "[eventfd]"⟩]

/-- The complete enumeration `envGood` produces for pid 1. -/
def goodFiles : List (Option FileInfo) :=
  [some cwdRecG, some rootRecG, some txtRecG, some memRecG] ++ goodFds

/-! Success conditions under which the script provably cannot raise:
used to state the amended form of the never-fails claim. -/

/-- The `os.stat` call on `t` either succeeds or fails with `OSError`
(the only class `os.stat` raises, and the one `read_fd` catches). -/
def statOkOrOS (env : Env) (t : String) : Prop :=
  (∃ st, env.stat t = Except.ok st) ∨ (∃ e, env.stat t = Except.error (PyErr.osError e))

/-- Reading descriptor entry `path` cannot raise past `read_fd`: either
the readlink fails with `OSError` (degraded to an error record), or it
yields a well-formed target — nonempty and either absolute with a
stat that at worst raises `OSError`, or containing exactly one colon. -/
def readOk (env : Env) (path : String) : Prop :=
  (∃ e, env.readlink path = Except.error (PyErr.osError e)) ∨
  (∃ t, env.readlink path = Except.ok t ∧ t ≠ "" ∧
    ((pyhead t = '/' ∧ statOkOrOS env t) ∨
     (pyhead t ≠ '/' ∧ ∃ k d, pycolonsplit t = [k, d])))

/-! Helper lemmas about the embedding. -/

/-- A successful `FileInfo` construction stores exactly the given fields,
with command and user coming from `get_cmd_user`. -/
theorem mkFileInfo_ok {env : Env} {pid fd ty dev : String} {size node : PyVal}
    {name : String} {fi : FileInfo}
    (h : mkFileInfo env pid fd ty dev size node name = Except.ok fi) :
    ∃ c u, get_cmd_user env pid = Except.ok (c, u) ∧
      fi = ⟨pid, c, u, fd, ty, dev, size, node, name⟩ := by
  unfold mkFileInfo at h
  split at h
  · exact absurd h (by simp)
  · rename_i cu hcu
    exact ⟨cu.1, cu.2, by rw [hcu], by simp at h; exact h.symm⟩

/-- `FileInfo` construction under a successful command/user lookup. -/
theorem mkFileInfo_eq {env : Env} {pid : String} {c u : String}
    (fd ty dev : String) (size node : PyVal) (name : String)
    (hcu : get_cmd_user env pid = Except.ok (c, u)) :
    mkFileInfo env pid fd ty dev size node name =
      Except.ok ⟨pid, c, u, fd, ty, dev, size, node, name⟩ := by
  unfold mkFileInfo
  rw [hcu]

/-- `FileInfo` construction propagates a command/user lookup failure. -/
theorem mkFileInfo_err {env : Env} {pid : String} {e : PyErr}
    (fd ty dev : String) (size node : PyVal) (name : String)
    (hcu : get_cmd_user env pid = Except.error e) :
    mkFileInfo env pid fd ty dev size node name = Except.error e := by
  unfold mkFileInfo
  rw [hcu]

/-- `optmap` yields a present entry exactly from a successful build. -/
theorem optmap_ok_some {x : Except PyErr FileInfo} {r : FileInfo}
    (h : optmap x = Except.ok (some r)) : x = Except.ok r := by
  unfold optmap at h
  split at h <;> simp_all

/-- Unfolding `catchOS` on a successful overall result: either the body
succeeded, or it raised `OSError` and the handler succeeded. -/
theorem catchOS_ok {α : Type} {x : Except PyErr α} {h : String → Except PyErr α}
    {v : α} (hc : catchOS x h = Except.ok v) :
    x = Except.ok v ∨ ∃ e, x = Except.error (PyErr.osError e) ∧ h e = Except.ok v := by
  unfold catchOS at hc
  split at hc
  · rename_i e
    exact Or.inr ⟨e, rfl, hc⟩
  · rename_i hne
    exact Or.inl hc

/-- When the readlink itself fails with `OSError`, `read_fd` returns the
synthetic error record: descriptor `NOFD`, type `unknown`, empty device,
size and node, and a name made of the attempted path and the error
text. -/
theorem read_fd_os_err {env : Env} {pid fd path : String} {b : Bool} {e c u : String}
    (hrl : env.readlink path = Except.error (PyErr.osError e))
    (hcu : get_cmd_user env pid = Except.ok (c, u)) :
    read_fd env pid fd path b = Except.ok (some
      ⟨pid, c, u, "NOFD", "unknown", "", PyVal.s "", PyVal.s "",
        path ++ " (error: " ++ e ++ ")"⟩) := by
  have hb : read_fd_body env pid fd path b = Except.error (PyErr.osError e) := by
    unfold read_fd_body
    rw [hrl]
  unfold read_fd catchOS
  rw [hb]
  simp only [optmap, mkFileInfo_eq _ _ _ _ _ _ hcu]

/-- An absolute, stat-able target makes `read_fd` return the
fully-populated record: type from the mode bits, device from `fmt_dev`
with the caller's `use_rdev` flag, size and inode from the stat result,
and the target itself as name. -/
theorem read_fd_abs {env : Env} {pid fd path t : String} {b : Bool} {st : StatObj}
    {c u : String}
    (hrl : env.readlink path = Except.ok t) (hne : t ≠ "") (habs : pyhead t = '/')
    (hst : env.stat t = Except.ok st)
    (hcu : get_cmd_user env pid = Except.ok (c, u)) :
    read_fd env pid fd path b = Except.ok (some
      ⟨pid, c, u, fd, get_type st, fmt_dev st b, PyVal.i st.st_size, PyVal.i st.st_ino, t⟩) := by
  have hb : read_fd_body env pid fd path b = Except.ok (some
      ⟨pid, c, u, fd, get_type st, fmt_dev st b, PyVal.i st.st_size, PyVal.i st.st_ino, t⟩) := by
    unfold read_fd_body
    rw [hrl]
    simp only [if_neg hne, if_pos habs, hst, optmap, mkFileInfo_eq _ _ _ _ _ _ hcu]
  unfold read_fd catchOS
  rw [hb]

/-- Every present record a successful `read_fd_body` returns carries the
calling pid and the passed descriptor string. -/
theorem read_fd_body_shape {env : Env} {pid fd path : String} {b : Bool} {r : FileInfo}
    (h : read_fd_body env pid fd path b = Except.ok (some r)) :
    r.pid = pid ∧ r.fd = fd := by
  unfold read_fd_body at h
  repeat' split at h
  all_goals
    first
      | (obtain ⟨c, u, hcu, rfl⟩ := mkFileInfo_ok (optmap_ok_some h)
         exact ⟨rfl, rfl⟩)
      | simp_all

/-- Every present record `read_fd` returns carries the calling pid, and
its descriptor field is either the passed descriptor or `NOFD`. -/
theorem read_fd_shape {env : Env} {pid fd path : String} {b : Bool} {r : FileInfo}
    (h : read_fd env pid fd path b = Except.ok (some r)) :
    r.pid = pid ∧ (r.fd = fd ∨ r.fd = "NOFD") := by
  unfold read_fd at h
  rcases catchOS_ok h with hb | ⟨e, _, hh⟩
  · obtain ⟨h1, h2⟩ := read_fd_body_shape hb
    exact ⟨h1, Or.inl h2⟩
  · obtain ⟨c, u, hcu, rfl⟩ := mkFileInfo_ok (optmap_ok_some hh)
    exact ⟨rfl, Or.inr rfl⟩

/-- A successful descriptor loop yields exactly one entry per listed
descriptor. -/
theorem readFdLoop_length {env : Env} {pid : String} :
    ∀ {fds : List String} {l : List (Option FileInfo)},
      readFdLoop env pid fds = Except.ok l → l.length = fds.length := by
  intro fds
  induction fds with
  | nil =>
    intro l h
    unfold readFdLoop at h
    simp_all
  | cons fd rest ih =>
    intro l h
    unfold readFdLoop at h
    split at h
    · simp_all
    · split at h
      · simp_all
      · rename_i rs hrs
        simp only [Except.ok.injEq] at h
        subst h
        simp [ih hrs]

/-- The `k`-th entry of a successful descriptor loop is the result of
`read_fd` on the `k`-th listed descriptor (with `use_rdev = True`). -/
theorem readFdLoop_get {env : Env} {pid : String} :
    ∀ {fds : List String} {l : List (Option FileInfo)} {k : Nat}
      (_ : readFdLoop env pid fds = Except.ok l) (hk : k < fds.length),
      ∃ r, l.get? k = some r ∧
        read_fd env pid (fds.get ⟨k, hk⟩) (fdPath pid (fds.get ⟨k, hk⟩)) true =
          Except.ok r := by
  intro fds
  induction fds with
  | nil =>
    intro l k _ hk
    exact absurd hk (by simp)
  | cons fd rest ih =>
    intro l k h hk
    unfold readFdLoop at h
    split at h
    · simp_all
    · rename_i r0 hr0
      split at h
      · simp_all
      · rename_i rs hrs
        simp only [Except.ok.injEq] at h
        subst h
        cases k with
        | zero => exact ⟨r0, rfl, hr0⟩
        | succ k0 =>
          obtain ⟨r, h1, h2⟩ := ih hrs (Nat.lt_of_succ_lt_succ hk)
          exact ⟨r, h1, h2⟩

/-- Every present record of a successful descriptor loop carries the
calling pid, and its descriptor is a listed one or `NOFD`. -/
theorem readFdLoop_mem {env : Env} {pid : String} :
    ∀ {fds : List String} {l : List (Option FileInfo)} {r : FileInfo},
      readFdLoop env pid fds = Except.ok l → some r ∈ l →
      r.pid = pid ∧ (r.fd ∈ fds ∨ r.fd = "NOFD") := by
  intro fds
  induction fds with
  | nil =>
    intro l r h hm
    unfold readFdLoop at h
    simp only [Except.ok.injEq] at h
    subst h
    simp at hm
  | cons fd rest ih =>
    intro l r h hm
    unfold readFdLoop at h
    split at h
    · simp_all
    · rename_i r0 hr0
      split at h
      · simp_all
      · rename_i rs hrs
        simp only [Except.ok.injEq] at h
        subst h
        rcases List.mem_cons.mp hm with h0 | h1
        · obtain ⟨h2, h3⟩ := read_fd_shape (h0 ▸ hr0)
          exact ⟨h2, by rcases h3 with h3 | h3 <;> simp [h3]⟩
        · obtain ⟨h2, h3⟩ := ih hrs h1
          exact ⟨h2, by rcases h3 with h3 | h3 <;> simp [h3]⟩

/-- Every present record `get_proc_fds` returns carries the calling pid,
and its descriptor is `NOFD` or one of the entries the descriptor-table
listing returned. -/
theorem get_proc_fds_shape {env : Env} {pid : String} {l : List (Option FileInfo)}
    {r : FileInfo}
    (h : get_proc_fds env pid = Except.ok l) (hm : some r ∈ l) :
    r.pid = pid ∧ (r.fd = "NOFD" ∨
      ∃ fds, env.listdir ("/proc/" ++ pid ++ "/fd") = Except.ok fds ∧ r.fd ∈ fds) := by
  unfold get_proc_fds at h
  rcases catchOS_ok h with hb | ⟨e, _, hh⟩
  · split at hb
    · simp_all
    · rename_i fds hfds
      obtain ⟨h1, h2⟩ := readFdLoop_mem hb hm
      refine ⟨h1, ?_⟩
      rcases h2 with h2 | h2
      · exact Or.inr ⟨fds, hfds, h2⟩
      · exact Or.inl h2
  · split at hh
    · simp_all
    · rename_i fi hfi
      simp only [Except.ok.injEq] at hh
      subst hh
      simp only [List.mem_singleton, Option.some.injEq] at hm
      obtain ⟨c, u, hcu, rfl⟩ := mkFileInfo_ok hfi
      subst hm
      exact ⟨rfl, Or.inl rfl⟩

/-- One maps-loop step only ever appends records with descriptor `mem`
and the calling pid. -/
theorem procMapsLine_mem {env : Env} {pid line : String} {acc acc2 : List FileInfo}
    {r : FileInfo}
    (h : procMapsLine env pid acc line = Except.ok acc2) (hm : r ∈ acc2) :
    r ∈ acc ∨ (r.pid = pid ∧ r.fd = "mem") := by
  unfold procMapsLine at h
  simp only [] at h
  split at h
  · simp_all
  · split at h
    · simp_all
    · split at h
      · simp_all
      · split at h
        · simp_all
        · split at h
          · split at h
            · simp_all
            · rename_i fi hfi
              simp only [Except.ok.injEq] at h
              subst h
              rcases List.mem_append.mp hm with h1 | h1
              · exact Or.inl h1
              · obtain ⟨c, u, hcu, rfl⟩ := mkFileInfo_ok hfi
                simp only [List.mem_singleton] at h1
                subst h1
                exact Or.inr ⟨rfl, rfl⟩
          · simp only [Except.ok.injEq] at h
            subst h
            exact Or.inl hm

/-- Records of a successful maps loop come from the accumulator or are
`mem` records of the calling pid. -/
theorem mapsLoop_mem {env : Env} {pid : String} :
    ∀ {lines : List String} {acc l : List FileInfo} {r : FileInfo},
      mapsLoop env pid lines acc = Except.ok l → r ∈ l →
      r ∈ acc ∨ (r.pid = pid ∧ r.fd = "mem") := by
  intro lines
  induction lines with
  | nil =>
    intro acc l r h hm
    unfold mapsLoop at h
    simp only [Except.ok.injEq] at h
    subst h
    exact Or.inl hm
  | cons line rest ih =>
    intro acc l r h hm
    unfold mapsLoop at h
    split at h
    · simp_all
    · rename_i acc2 hacc2
      rcases ih h hm with h1 | h1
      · exact procMapsLine_mem hacc2 h1
      · exact Or.inr h1

/-- Every record `get_proc_maps` returns has descriptor `mem` and the
calling pid. -/
theorem get_proc_maps_shape {env : Env} {pid : String} {r : FileInfo}
    (hm : r ∈ get_proc_maps env pid) : r.pid = pid ∧ r.fd = "mem" := by
  unfold get_proc_maps at hm
  split at hm
  · simp at hm
  · split at hm
    · simp at hm
    · rename_i l hl
      rcases mapsLoop_mem hl hm with h1 | h1
      · simp at h1
      · exact h1

/-- Processing a concatenation of map lines processes the first part,
then continues with the second from the accumulated state. -/
theorem mapsLoop_append {env : Env} {pid : String} (xs : List String) :
    ∀ (ys : List String) (acc : List FileInfo),
      mapsLoop env pid (xs ++ ys) acc =
        match mapsLoop env pid xs acc with
        | Except.ok acc2 => mapsLoop env pid ys acc2
        | Except.error e => Except.error e := by
  induction xs with
  | nil =>
    intro ys acc
    rfl
  | cons x rest ih =>
    intro ys acc
    cases hx : procMapsLine env pid acc x with
    | error e => simp [mapsLoop, hx]
    | ok acc2 => simp [mapsLoop, hx, ih]

/-- A successful `get_proc_files` call is exactly the concatenation of
the five sections in source order. -/
theorem get_proc_files_split {env : Env} {pid : String} {l : List (Option FileInfo)}
    (h : get_proc_files env pid = Except.ok l) :
    ∃ c r t f, get_proc_cwd env pid = Except.ok c ∧ get_proc_root env pid = Except.ok r ∧
      get_proc_txt env pid = Except.ok t ∧ get_proc_fds env pid = Except.ok f ∧
      l = [c] ++ [r] ++ [t] ++ (get_proc_maps env pid).map some ++ f := by
  unfold get_proc_files at h
  repeat' split at h
  all_goals simp_all

/-- Under a successful command/user lookup and a well-behaved readlink,
`read_fd` returns (it cannot raise). -/
theorem read_fd_total {env : Env} {pid : String} (fd path : String) (b : Bool)
    (hcu : ∃ cu, get_cmd_user env pid = Except.ok cu)
    (h : readOk env path) :
    ∃ v, read_fd env pid fd path b = Except.ok v := by
  obtain ⟨⟨c, u⟩, hcu⟩ := hcu
  rcases h with ⟨e, he⟩ | ⟨t, ht, hne, habs | hrel⟩
  · exact ⟨_, read_fd_os_err he hcu⟩
  · rcases habs.2 with ⟨st, hst⟩ | ⟨e, hst⟩
    · exact ⟨_, read_fd_abs ht hne habs.1 hst hcu⟩
    · have hb : read_fd_body env pid fd path b = Except.error (PyErr.osError e) := by
        unfold read_fd_body
        rw [ht]
        simp only [if_neg hne, if_pos habs.1, hst]
      refine ⟨some ⟨pid, c, u, "NOFD", "unknown", "", PyVal.s "", PyVal.s "",
        path ++ " (error: " ++ e ++ ")"⟩, ?_⟩
      unfold read_fd catchOS
      rw [hb]
      simp only [optmap, mkFileInfo_eq _ _ _ _ _ _ hcu]
  · obtain ⟨hnabs, k, d, hsplit⟩ := hrel
    have hb : ∃ v, read_fd_body env pid fd path b = Except.ok v := by
      unfold read_fd_body
      rw [ht]
      simp only [if_neg hne, if_neg hnabs, hsplit]
      by_cases h1 : k = "anon_inode"
      · simp only [if_pos h1, optmap, mkFileInfo_eq _ _ _ _ _ _ hcu]
        exact ⟨_, rfl⟩
      · simp only [if_neg h1]
        by_cases h2 : k = "socket"
        · simp only [if_pos h2, optmap, mkFileInfo_eq _ _ _ _ _ _ hcu]
          exact ⟨_, rfl⟩
        · simp only [if_neg h2]
          by_cases h3 : k = "pipe"
          · simp only [if_pos h3, optmap, mkFileInfo_eq _ _ _ _ _ _ hcu]
            exact ⟨_, rfl⟩
          · simp only [if_neg h3]
            exact ⟨none, rfl⟩
    obtain ⟨v, hb⟩ := hb
    refine ⟨v, ?_⟩
    unfold read_fd catchOS
    rw [hb]

/-- The descriptor loop returns when every listed descriptor's read
returns. -/
theorem readFdLoop_total {env : Env} {pid : String}
    (hcu : ∃ cu, get_cmd_user env pid = Except.ok cu) :
    ∀ {fds : List String}, (∀ fd ∈ fds, readOk env (fdPath pid fd)) →
      ∃ l, readFdLoop env pid fds = Except.ok l := by
  intro fds
  induction fds with
  | nil =>
    intro _
    exact ⟨[], rfl⟩
  | cons fd rest ih =>
    intro hall
    obtain ⟨r, hr⟩ := read_fd_total fd (fdPath pid fd) true hcu (hall fd (by simp))
    obtain ⟨rs, hrs⟩ := ih (fun f hf => hall f (by simp [hf]))
    refine ⟨r :: rs, ?_⟩
    unfold readFdLoop
    rw [hr, hrs]

/-- `get_proc_fds` returns when the listing either fails with `OSError`
or succeeds with every listed descriptor well-behaved. -/
theorem get_proc_fds_total {env : Env} {pid : String}
    (hcu : ∃ cu, get_cmd_user env pid = Except.ok cu)
    (hf : (∃ e, env.listdir ("/proc/" ++ pid ++ "/fd") = Except.error (PyErr.osError e)) ∨
      (∃ fds, env.listdir ("/proc/" ++ pid ++ "/fd") = Except.ok fds ∧
        ∀ fd ∈ fds, readOk env (fdPath pid fd))) :
    ∃ l, get_proc_fds env pid = Except.ok l := by
  obtain ⟨⟨c, u⟩, hcu⟩ := hcu
  rcases hf with ⟨e, he⟩ | ⟨fds, hfds, hall⟩
  · refine ⟨[some ⟨pid, c, u, "NOFD", "unknown", "", PyVal.s "", PyVal.s "",
        "/proc/" ++ pid ++ "/fd" ++ " (error: " ++ e ++ ")"⟩], ?_⟩
    unfold get_proc_fds catchOS
    simp only [he]
    simp only [mkFileInfo_eq _ _ _ _ _ _ hcu]
  · obtain ⟨l, hl⟩ := readFdLoop_total ⟨(c, u), hcu⟩ hall
    refine ⟨l, ?_⟩
    unfold get_proc_fds catchOS
    simp only [hfds]
    rw [hl]

/-- C1 counterexample: with every uid unresolvable (`pwd.getpwuid`
raising `KeyError`), `get_proc_files` raises instead of returning
records, and the full `lsof` scan aborts with the same uncaught
exception. -/
theorem claim1_counterexample :
    get_proc_files envKeyErr "1" = Except.error PyErr.keyError ∧
    lsof envKeyErr = Except.error PyErr.keyError :=
  ⟨rfl, rfl⟩

/-- C1 (amended): `get_proc_files` returns without raising provided the
command/user lookup for the pid succeeds and every link read either
fails with `OSError` or yields a well-formed target (nonempty; absolute
with an at-worst-`OSError` stat, or containing exactly one colon), and
the descriptor listing fails only with `OSError`; outside these
conditions exceptions (`KeyError` from an unresolvable uid, `ValueError`
from a colonless or multi-colon target, `IOError` from vanished process
metadata) propagate and abort both the process enumeration and the full
scan. -/
theorem claim1_no_raise (env : Env) (pid : String)
    (hcu : ∃ cu, get_cmd_user env pid = Except.ok cu)
    (hc : readOk env ("/proc/" ++ pid ++ "/cwd"))
    (hr : readOk env ("/proc/" ++ pid ++ "/root"))
    (ht : readOk env ("/proc/" ++ pid ++ "/exe"))
    (hf : (∃ e, env.listdir ("/proc/" ++ pid ++ "/fd") = Except.error (PyErr.osError e)) ∨
      (∃ fds, env.listdir ("/proc/" ++ pid ++ "/fd") = Except.ok fds ∧
        ∀ fd ∈ fds, readOk env (fdPath pid fd))) :
    ∃ l, get_proc_files env pid = Except.ok l := by
  obtain ⟨c, hcw⟩ := read_fd_total "cwd" ("/proc/" ++ pid ++ "/cwd") false hcu hc
  obtain ⟨r, hrt⟩ := read_fd_total "rtd" ("/proc/" ++ pid ++ "/root") false hcu hr
  obtain ⟨t, htx⟩ := read_fd_total "txt" ("/proc/" ++ pid ++ "/exe") false hcu ht
  obtain ⟨f, hfds⟩ := get_proc_fds_total hcu hf
  refine ⟨[c] ++ [r] ++ [t] ++ (get_proc_maps env pid).map some ++ f, ?_⟩
  unfold get_proc_files get_proc_cwd get_proc_root get_proc_txt
  simp only [hcw, hrt, htx, hfds]

/-- C1 witness: the amended no-raise conditions hold of the concrete
healthy environment, so its enumeration succeeds. -/
theorem claim1_witness : ∃ l, get_proc_files envGood "1" = Except.ok l := by
  apply claim1_no_raise envGood "1" ⟨("init", "root"), rfl⟩
  · exact Or.inr ⟨"/home", rfl, by decide, Or.inl ⟨rfl, Or.inl ⟨dirStat, rfl⟩⟩⟩
  · exact Or.inr ⟨"/", rfl, by decide, Or.inl ⟨rfl, Or.inl ⟨dirStat, rfl⟩⟩⟩
  · exact Or.inr ⟨"/sbin/init", rfl, by decide, Or.inl ⟨rfl, Or.inl ⟨regStat, rfl⟩⟩⟩
  · refine Or.inr ⟨["0", "1", "2", "3", "4"], rfl, ?_⟩
    intro fd hfd
    simp only [List.mem_cons, List.not_mem_nil, or_false] at hfd
    rcases hfd with rfl | rfl | rfl | rfl | rfl
    · exact Or.inr ⟨"/dev/null", rfl, by decide, Or.inl ⟨rfl, Or.inl ⟨chrStat, rfl⟩⟩⟩
    · exact Or.inr ⟨"socket:[12345]", rfl, by decide,
        Or.inr ⟨by decide, "socket", "[12345]", by decide⟩⟩
    · exact Or.inr ⟨"pipe:[67890]", rfl, by decide,
        Or.inr ⟨by decide, "pipe", "[67890]", by decide⟩⟩
    · exact Or.inl ⟨"Permission denied", rfl⟩
    · exact Or.inr ⟨"anon_inode:[eventfd]", rfl, by decide,
        Or.inr ⟨by decide, "anon_inode", "[eventfd]", by decide⟩⟩

/-- C2 counterexample: the target `net:[4026531840]` does not degrade to
an `unknown` record — `read_fd` returns `None` (the classifier falls
through), and the scan then aborts with `AttributeError` when that row
reaches the output formatting, i.e. an invalid row is produced. -/
theorem claim2_counterexample :
    read_fd envNet "1" "7" "/proc/1/fd/7" true = Except.ok none ∧
    lsof envNet = Except.error PyErr.attributeError :=
  ⟨rfl, rfl⟩

/-- C2 (amended): a non-absolute link target of the form `k:d` whose
prefix `k` is none of `anon_inode`, `socket`, `pipe` yields no record at
all: `read_fd` falls through and returns `None`. The `None` entry is kept
in the enumeration result, so it is not silently dropped, but it becomes
an `AttributeError` (an aborted scan), not a best-effort `unknown` row. -/
theorem claim2_unrecognized_none (env : Env) (pid fd path : String) (b : Bool)
    (t k d : String)
    (hrl : env.readlink path = Except.ok t) (hne : t ≠ "") (hnabs : pyhead t ≠ '/')
    (hsplit : pycolonsplit t = [k, d])
    (h1 : k ≠ "anon_inode") (h2 : k ≠ "socket") (h3 : k ≠ "pipe") :
    read_fd env pid fd path b = Except.ok none := by
  have hb : read_fd_body env pid fd path b = Except.ok none := by
    unfold read_fd_body
    rw [hrl]
    simp only [if_neg hne, if_neg hnabs, hsplit, if_neg h1, if_neg h2, if_neg h3]
  unfold read_fd catchOS
  rw [hb]

/-- C2 witness: the amended behaviour at the concrete `net:` target. -/
theorem claim2_witness : read_fd envNet "1" "7" "/proc/1/fd/7" true = Except.ok none :=
  claim2_unrecognized_none envNet "1" "7" "/proc/1/fd/7" true "net:[4026531840]" "net"
    "[4026531840]" rfl (by decide) (by decide) (by decide) (by decide) (by decide) (by decide)

/-- C3 counterexample: with an unresolvable uid, `FileInfo` construction
does not complete with an unresolved user field — it raises `KeyError`,
and the enumeration of the process aborts with it. -/
theorem claim3_counterexample :
    mkFileInfo envKeyErr "1" "cwd" "DIR" "8,1" (PyVal.s "0") (PyVal.s "") "/" =
      Except.error PyErr.keyError ∧
    get_proc_cwd envKeyErr "1" = Except.error PyErr.keyError :=
  ⟨rfl, rfl⟩

/-- C3 (amended): if the command/user resolution fails, the failure
propagates out of `FileInfo` construction unchanged — the record is not
built with an unresolved field; construction aborts. -/
theorem claim3_lookup_failure_aborts (env : Env) (pid fd ty dev : String)
    (size node : PyVal) (name : String) (e : PyErr)
    (hcu : get_cmd_user env pid = Except.error e) :
    mkFileInfo env pid fd ty dev size node name = Except.error e :=
  mkFileInfo_err fd ty dev size node name hcu

/-- C3 witness: the amended behaviour at the concrete environment whose
uid lookup raises `KeyError`. -/
theorem claim3_witness :
    mkFileInfo envKeyErr "1" "0" "REG" "8,1" (PyVal.i 100) (PyVal.i 42) "/sbin/init" =
      Except.error PyErr.keyError :=
  claim3_lookup_failure_aborts envKeyErr "1" "0" "REG" "8,1" (PyVal.i 100) (PyVal.i 42)
    "/sbin/init" PyErr.keyError rfl

/-- C5: classifying the raw target `socket:[12345]` yields type
`socket`, device `12345` (the bracket-stripped detail), size the string
`0`, empty inode and empty name, with pid, command, user and descriptor
taken from the caller. -/
theorem claim5_socket (env : Env) (pid fd path : String) (b : Bool) (c u : String)
    (hcu : get_cmd_user env pid = Except.ok (c, u))
    (hrl : env.readlink path = Except.ok "socket:[12345]") :
    read_fd env pid fd path b =
      Except.ok (some ⟨pid, c, u, fd, "socket", "12345", PyVal.s "0", PyVal.s "", ""⟩) := by
  have hb : read_fd_body env pid fd path b =
      Except.ok (some ⟨pid, c, u, fd, "socket", "12345", PyVal.s "0", PyVal.s "", ""⟩) := by
    unfold read_fd_body
    rw [hrl]
    show optmap (mkFileInfo env pid fd "socket" (pyslice1 "[12345]") (PyVal.s "0")
      (PyVal.s "") "") = _
    rw [mkFileInfo_eq _ _ _ _ _ _ hcu]
    rfl
  unfold read_fd catchOS
  rw [hb]

/-- C5 witness: the socket classification at the concrete environment. -/
theorem claim5_witness :
    read_fd envGood "1" "1" "/proc/1/fd/1" true =
      Except.ok (some ⟨"1", "init", "root", "1", "socket", "12345", PyVal.s "0",
        PyVal.s "", ""⟩) :=
  claim5_socket envGood "1" "1" "/proc/1/fd/1" true "init" "root" rfl rfl

/-- C6: for an absolute target, the device column is
`<major>,<minor>` computed from the file's own device number (`st_dev`)
when `use_rdev` is false — the flag the cwd/root/exe pseudo-descriptor
readers pass — and from the special/raw device number (`st_rdev`) when
`use_rdev` is true — the flag the numbered-descriptor loop passes. -/
theorem claim6_dev_source (env : Env) (pid fd path t : String) (st : StatObj) (c u : String)
    (hcu : get_cmd_user env pid = Except.ok (c, u))
    (hrl : env.readlink path = Except.ok t) (hne : t ≠ "") (habs : pyhead t = '/')
    (hst : env.stat t = Except.ok st) :
    read_fd env pid fd path false = Except.ok (some ⟨pid, c, u, fd, get_type st,
      natToStr (os_major st.st_dev) ++ "," ++ natToStr (os_minor st.st_dev),
      PyVal.i st.st_size, PyVal.i st.st_ino, t⟩) ∧
    read_fd env pid fd path true = Except.ok (some ⟨pid, c, u, fd, get_type st,
      natToStr (os_major st.st_rdev) ++ "," ++ natToStr (os_minor st.st_rdev),
      PyVal.i st.st_size, PyVal.i st.st_ino, t⟩) ∧
    get_proc_cwd env pid = read_fd env pid "cwd" ("/proc/" ++ pid ++ "/cwd") false ∧
    get_proc_root env pid = read_fd env pid "rtd" ("/proc/" ++ pid ++ "/root") false ∧
    get_proc_txt env pid = read_fd env pid "txt" ("/proc/" ++ pid ++ "/exe") false ∧
    ∀ fd2 rest, readFdLoop env pid (fd2 :: rest) =
      (match read_fd env pid fd2 (fdPath pid fd2) true with
       | Except.error e => Except.error e
       | Except.ok r =>
         match readFdLoop env pid rest with
         | Except.error e => Except.error e
         | Except.ok rs => Except.ok (r :: rs)) := by
  refine ⟨?_, ?_, rfl, rfl, rfl, fun _ _ => rfl⟩
  · exact read_fd_abs hrl hne habs hst hcu
  · exact read_fd_abs hrl hne habs hst hcu

/-- C6 witness: the raw-device variant on the concrete character device
`/dev/null` (`st_rdev = 259`, giving `1,3` rather than the `0,6`
that `st_dev` would give). -/
theorem claim6_witness :
    read_fd envGood "1" "0" "/proc/1/fd/0" true = Except.ok (some ⟨"1", "init", "root", "0",
      get_type chrStat, natToStr (os_major chrStat.st_rdev) ++ "," ++
        natToStr (os_minor chrStat.st_rdev),
      PyVal.i chrStat.st_size, PyVal.i chrStat.st_ino, "/dev/null"⟩) :=
  (claim6_dev_source envGood "1" "0" "/proc/1/fd/0" "/dev/null" chrStat "init" "root"
    rfl rfl (by decide) rfl rfl).2.1

/-- C7: a successful enumeration is the fixed-order concatenation —
cwd record, root record, executable record, all memory-map records, then
all numbered-descriptor records — and the numbered-descriptor section
has one entry per listed descriptor, its `k`-th entry being the read of
the `k`-th descriptor the listing returned (listing order, no sort). -/
theorem claim7_order (env : Env) (pid : String) (c r t : Option FileInfo)
    (fds : List String) (f : List (Option FileInfo))
    (hc : get_proc_cwd env pid = Except.ok c) (hr : get_proc_root env pid = Except.ok r)
    (ht : get_proc_txt env pid = Except.ok t)
    (hl : env.listdir ("/proc/" ++ pid ++ "/fd") = Except.ok fds)
    (hf : readFdLoop env pid fds = Except.ok f) :
    get_proc_files env pid =
      Except.ok ([c] ++ [r] ++ [t] ++ (get_proc_maps env pid).map some ++ f) ∧
    f.length = fds.length ∧
    ∀ k (hk : k < fds.length), ∃ rk, f.get? k = some rk ∧
      read_fd env pid (fds.get ⟨k, hk⟩) (fdPath pid (fds.get ⟨k, hk⟩)) true =
        Except.ok rk := by
  have hfds : get_proc_fds env pid = Except.ok f := by
    unfold get_proc_fds catchOS
    simp only [hl]
    rw [hf]
  refine ⟨?_, readFdLoop_length hf, fun k hk => readFdLoop_get hf hk⟩
  unfold get_proc_files
  simp only [hc, hr, ht, hfds]

/-- C7 witness: the fixed order at the concrete environment: cwd, root,
executable, one mem record, then the five descriptor entries in listing
order. -/
theorem claim7_witness :
    get_proc_files envGood "1" = Except.ok ([some cwdRecG] ++ [some rootRecG] ++
      [some txtRecG] ++ (get_proc_maps envGood "1").map some ++ goodFds) ∧
    goodFds.length = (["0", "1", "2", "3", "4"] : List String).length ∧
    ∀ k (hk : k < (["0", "1", "2", "3", "4"] : List String).length), ∃ rk,
      goodFds.get? k = some rk ∧
      read_fd envGood "1" ((["0", "1", "2", "3", "4"] : List String).get ⟨k, hk⟩)
        (fdPath "1" ((["0", "1", "2", "3", "4"] : List String).get ⟨k, hk⟩)) true =
        Except.ok rk :=
  claim7_order envGood "1" (some cwdRecG) (some rootRecG) (some txtRecG)
    ["0", "1", "2", "3", "4"] goodFds rfl rfl rfl rfl rfl

/-- C4 counterexample: the concrete descriptor strings the code stores
are `rtd` for the root record, `txt` for the executable record and
`NOFD` for error records — not the claimed `root`, `exe`, `nofd`. -/
theorem claim4_counterexample :
    get_proc_root envGood "1" = Except.ok (some rootRecG) ∧ rootRecG.fd = "rtd" ∧
    get_proc_txt envGood "1" = Except.ok (some txtRecG) ∧ txtRecG.fd = "txt" ∧
    read_fd envGood "1" "3" "/proc/1/fd/3" true = Except.ok (some ⟨"1", "init", "root",
      "NOFD", "unknown", "", PyVal.s "", PyVal.s "",
      "/proc/1/fd/3 (error: Permission denied)"⟩) ∧
    ("rtd" ≠ "root" ∧ "txt" ≠ "exe" ∧ "NOFD" ≠ "nofd") :=
  ⟨rfl, rfl, rfl, rfl, rfl, by decide⟩

/-- C4 (amended): every emitted record's descriptor field is one of the
fixed tokens `cwd`, `rtd`, `txt`, `mem`, `NOFD` or an entry of the
descriptor-table listing (a numeric fd index); the root-directory record
carries `rtd` (or `NOFD` on failure), the executable record carries
`txt` (or `NOFD`), and a record built from a failed readlink carries
`NOFD`. -/
theorem claim4_tokens (env : Env) (pid : String) (l : List (Option FileInfo))
    (h : get_proc_files env pid = Except.ok l) :
    (∀ r : FileInfo, some r ∈ l →
      r.fd ∈ ["cwd", "rtd", "txt", "mem", "NOFD"] ∨
      ∃ fds, env.listdir ("/proc/" ++ pid ++ "/fd") = Except.ok fds ∧ r.fd ∈ fds) ∧
    (∀ r : FileInfo, get_proc_root env pid = Except.ok (some r) →
      r.fd = "rtd" ∨ r.fd = "NOFD") ∧
    (∀ r : FileInfo, get_proc_txt env pid = Except.ok (some r) →
      r.fd = "txt" ∨ r.fd = "NOFD") ∧
    (∀ (fd path : String) (b : Bool) (e : String) (r : FileInfo),
      env.readlink path = Except.error (PyErr.osError e) →
      read_fd env pid fd path b = Except.ok (some r) → r.fd = "NOFD") := by
  refine ⟨?_, ?_, ?_, ?_⟩
  · obtain ⟨c, rr, t, f, hc, hrr, ht, hf, rfl⟩ := get_proc_files_split h
    intro r hm
    simp only [List.append_assoc, List.mem_append, List.mem_singleton] at hm
    rcases hm with h1 | h1 | h1 | h1 | h1
    · subst h1
      unfold get_proc_cwd at hc
      rcases (read_fd_shape hc).2 with h2 | h2 <;> exact Or.inl (by simp [h2])
    · subst h1
      unfold get_proc_root at hrr
      rcases (read_fd_shape hrr).2 with h2 | h2 <;> exact Or.inl (by simp [h2])
    · subst h1
      unfold get_proc_txt at ht
      rcases (read_fd_shape ht).2 with h2 | h2 <;> exact Or.inl (by simp [h2])
    · obtain ⟨a, ha, hae⟩ := List.mem_map.mp h1
      cases hae
      exact Or.inl (by simp [(get_proc_maps_shape ha).2])
    · rcases (get_proc_fds_shape hf h1).2 with h2 | h2
      · exact Or.inl (by simp [h2])
      · exact Or.inr h2
  · intro r hrr
    unfold get_proc_root at hrr
    exact (read_fd_shape hrr).2
  · intro r ht
    unfold get_proc_txt at ht
    exact (read_fd_shape ht).2
  · intro fd path b e r hrl h2
    have hb : read_fd_body env pid fd path b = Except.error (PyErr.osError e) := by
      unfold read_fd_body
      rw [hrl]
    unfold read_fd catchOS at h2
    rw [hb] at h2
    obtain ⟨c, u, hcu, rfl⟩ := mkFileInfo_ok (optmap_ok_some h2)
    rfl

/-- C4 witness: the amended token property at the concrete root
record. -/
theorem claim4_witness :
    rootRecG.fd ∈ ["cwd", "rtd", "txt", "mem", "NOFD"] ∨
    ∃ fds, envGood.listdir ("/proc/" ++ "1" ++ "/fd") = Except.ok fds ∧
      rootRecG.fd ∈ fds :=
  (claim4_tokens envGood "1" goodFiles rfl).1 rootRecG (by decide)

/-- C8 counterexample: in the concrete five-descriptor process whose
descriptor 3 fails with `EACCES`, all five entries are produced and the
failed one carries descriptor string `NOFD` — not the claimed lowercase
`nofd`. -/
theorem claim8_counterexample :
    get_proc_fds envGood "1" = Except.ok goodFds ∧
    goodFds.get? 3 = some (some ⟨"1", "init", "root", "NOFD", "unknown", "", PyVal.s "",
      PyVal.s "", "/proc/1/fd/3 (error: Permission denied)"⟩) ∧
    "NOFD" ≠ "nofd" :=
  ⟨rfl, rfl, by decide⟩

/-- C8 (amended): when the descriptor listing yields `n` descriptors
and the loop over them returns, the result has exactly `n` entries; if
the `k`-th descriptor's readlink failed with an OS error (and the
command/user lookup succeeds), the `k`-th entry is the synthetic record
with descriptor `NOFD` (uppercase, not the spec's `nofd`), type
`unknown`, and a name containing the attempted path and the error
reason, while the remaining descriptors are still enumerated. -/
theorem claim8_fd_error_record (env : Env) (pid : String) (fds : List String)
    (l : List (Option FileInfo)) (k : Nat) (e c u : String)
    (hl : env.listdir ("/proc/" ++ pid ++ "/fd") = Except.ok fds)
    (hloop : readFdLoop env pid fds = Except.ok l)
    (hk : k < fds.length)
    (hbad : env.readlink (fdPath pid (fds.get ⟨k, hk⟩)) = Except.error (PyErr.osError e))
    (hcu : get_cmd_user env pid = Except.ok (c, u)) :
    get_proc_fds env pid = Except.ok l ∧ l.length = fds.length ∧
    l.get? k = some (some ⟨pid, c, u, "NOFD", "unknown", "", PyVal.s "", PyVal.s "",
      fdPath pid (fds.get ⟨k, hk⟩) ++ " (error: " ++ e ++ ")"⟩) := by
  refine ⟨?_, readFdLoop_length hloop, ?_⟩
  · unfold get_proc_fds catchOS
    simp only [hl]
    rw [hloop]
  · obtain ⟨rk, h1, h2⟩ := readFdLoop_get hloop hk
    rw [read_fd_os_err hbad hcu] at h2
    simp only [Except.ok.injEq] at h2
    rw [h1, ← h2]

/-- C8 witness: the amended property at the concrete five-descriptor
process with descriptor 3 failing. -/
theorem claim8_witness :
    get_proc_fds envGood "1" = Except.ok goodFds ∧
    goodFds.length = (["0", "1", "2", "3", "4"] : List String).length ∧
    goodFds.get? 3 = some (some ⟨"1", "init", "root", "NOFD", "unknown", "", PyVal.s "",
      PyVal.s "", fdPath "1" ((["0", "1", "2", "3", "4"] : List String).get
        ⟨3, by decide⟩) ++ " (error: " ++ "Permission denied" ++ ")"⟩) :=
  claim8_fd_error_record envGood "1" ["0", "1", "2", "3", "4"] goodFds 3
    "Permission denied" "init" "root" rfl rfl (by decide) rfl rfl

/-- C9: every record enumerated for a pid — synthetic error records
included — carries that pid; no record is attributed to another
process. -/
theorem claim9_pid (env : Env) (pid : String) (l : List (Option FileInfo)) (r : FileInfo)
    (h : get_proc_files env pid = Except.ok l) (hm : some r ∈ l) : r.pid = pid := by
  obtain ⟨c, rr, t, f, hc, hrr, ht, hf, rfl⟩ := get_proc_files_split h
  simp only [List.append_assoc, List.mem_append, List.mem_singleton] at hm
  rcases hm with h1 | h1 | h1 | h1 | h1
  · subst h1
    unfold get_proc_cwd at hc
    exact (read_fd_shape hc).1
  · subst h1
    unfold get_proc_root at hrr
    exact (read_fd_shape hrr).1
  · subst h1
    unfold get_proc_txt at ht
    exact (read_fd_shape ht).1
  · obtain ⟨a, ha, hae⟩ := List.mem_map.mp h1
    cases hae
    exact (get_proc_maps_shape ha).1
  · exact (get_proc_fds_shape hf h1).1

/-- C9 witness: the pid invariant at the concrete root record of the
concrete enumeration. -/
theorem claim9_witness : rootRecG.pid = "1" :=
  claim9_pid envGood "1" goodFiles rootRecG rfl (by decide)

/-- C10: if any line of the maps table fails to parse — here, a
malformed line after lines that already produced records — the whole
memory-map section degrades to the empty list, discarding the records
already built, while the other four sections are assembled exactly as
if the maps section were empty. -/
theorem claim10_maps_error_discards (env : Env) (pid : String) (good : List String)
    (bad : String) (rest : List String) (acc : List FileInfo) (e : PyErr)
    (hlines : env.mapsLines pid = Except.ok (good ++ bad :: rest))
    (hgood : mapsLoop env pid good [] = Except.ok acc)
    (hbad : procMapsLine env pid acc bad = Except.error e) :
    get_proc_maps env pid = [] ∧
    (∀ c r t f, get_proc_cwd env pid = Except.ok c → get_proc_root env pid = Except.ok r →
      get_proc_txt env pid = Except.ok t → get_proc_fds env pid = Except.ok f →
      get_proc_files env pid = Except.ok ([c] ++ [r] ++ [t] ++ f)) := by
  have hfail : mapsLoop env pid (good ++ bad :: rest) [] = Except.error e := by
    rw [mapsLoop_append]
    simp only [hgood]
    unfold mapsLoop
    rw [hbad]
  have hmaps : get_proc_maps env pid = [] := by
    unfold get_proc_maps
    simp only [hlines]
    rw [hfail]
  refine ⟨hmaps, ?_⟩
  intro c r t f hc hr ht hf
  unfold get_proc_files
  simp only [hc, hr, ht, hf, hmaps]
  simp

/-- C10 witness: the discard behaviour at the concrete environment whose
maps table has one valid file-backed line followed by a malformed one:
the valid line's record is thrown away. -/
theorem claim10_witness : get_proc_maps envMapsBad "1" = [] :=
  (claim10_maps_error_discards envMapsBad "1"
    ["00400000-00452000 r-xp 00000000 08:02 173521 /sbin/init"] "garbage" [] [memRecG]
    PyErr.indexError rfl rfl rfl).1
